import Mathlib

/-!
Shallow embedding of the ResuMatch resume-analysis pipeline.

Source files embedded here:
- `src/app/models/candidate.py`, `src/app/models/role.py` (data model),
- `src/app/tasks/resume_processor.py` (`analyze_resume_task`),
- `src/app/api/v1/endpoints.py` (`analyze_resume`, `get_suggestions`),
- `src/app/ml/rag_service.py` (`RAGService.generate_suggestions` and
  `RAGService._generate_fallback_suggestions`).

Machine floats are modelled as real numbers; Python's `round(x, 2)` is modelled
exactly, including round-half-to-even at ties.  External libraries
(base64, pypdf, sentence-transformers, the LangChain LLM chain) are modelled as
an environment of explicit (possibly fallible) functions, since only their
success/failure behaviour matters to the pipeline logic.
-/

/-- Raw document bytes (the `bytes` values flowing through the pipeline). -/
abbrev Bytes := List Nat

/-- `RoleProfile` table row (src/app/models/role.py).  The timestamp is omitted:
no embedded operation reads it. -/
structure RoleProfile where
  id : Nat
  title : String
  description : String
  requirements : Option String
  embedding : Option (List ℝ)

/-- `Candidate` table row (src/app/models/candidate.py).  The timestamp is
omitted: no embedded operation reads it. -/
structure Candidate where
  id : Nat
  filename : String
  role_id : Nat
  match_score : Option ℝ
  name : Option String
  email : Option String
  resume_text : Option String
  resume_vector : Option (List ℝ)

/-- The relational store: both tables plus the autoincrement counter that
assigns primary keys to newly inserted `Candidate` rows (`session.add` +
`session.commit` + `session.refresh`). -/
structure DB where
  roles : List RoleProfile
  candidates : List Candidate
  nextCandidateId : Nat

/-- `session.get(RoleProfile, role_id)`. -/
def findRole (db : DB) (rid : Nat) : Option RoleProfile :=
  db.roles.find? (fun r => r.id == rid)

/-- `session.get(Candidate, candidate_id)`. -/
def findCandidate (db : DB) (cid : Nat) : Option Candidate :=
  db.candidates.find? (fun c => c.id == cid)

/-- Python's built-in `round` to an integer: round-half-to-even (banker's
rounding).  At non-tie points it agrees with Mathlib's `round`. -/
noncomputable def pyRoundInt (x : ℝ) : ℤ :=
  if Int.fract x = 1/2 then (if Even ⌊x⌋ then ⌊x⌋ else ⌊x⌋ + 1) else round x

/-- Python's `round(x, 2)`: round to two decimal digits. -/
noncomputable def pyRound2 (x : ℝ) : ℝ := (pyRoundInt (x * 100) : ℝ) / 100

/-- Dot product of two vectors stored as lists (sklearn works on equal-length
rows; `zipWith` truncates, which only matters outside the equal-dimension
hypotheses used below). -/
noncomputable def dotList (u v : List ℝ) : ℝ := (List.zipWith (· * ·) u v).sum

/-- `sklearn.metrics.pairwise.cosine_similarity([u], [v])[0][0]`:
dot product over the product of Euclidean norms.  sklearn maps a zero-norm
row to similarity 0, which matches Lean's division-by-zero convention. -/
noncomputable def cosine_similarity (u v : List ℝ) : ℝ :=
  dotList u v / (Real.sqrt (dotList u u) * Real.sqrt (dotList v v))

/-- Boundary collaborators of the analysis pipeline: `base64.b64encode`,
`base64.b64decode` (raises on corrupt input), `PdfReader`-based page text
extraction (raises on malformed documents), and `ml_model.encode` (total). -/
structure Env where
  b64encode : Bytes → String
  b64decode : String → Except String Bytes
  extractText : Bytes → Except String String
  encode : String → List ℝ

/-- Outcome of one `analyze_resume_task` execution: the database afterwards,
the task's return value (`candidate.id` or `None`), and the printed log. -/
structure TaskResult where
  db : DB
  ret : Option Nat
  log : List String

/-- `analyze_resume_task` (src/app/tasks/resume_processor.py, lines 18-73),
step for step: decode (failure printed and swallowed), extract text (failure
printed and swallowed), vectorize, load role (missing role printed and
swallowed), score — `if not role.embedding` treats both `None` and `[]` as
falsy — then persist a new `Candidate` row carrying the results. -/
noncomputable def analyze_resume_task (env : Env) (db : DB)
    (file_content_b64 : String) (role_id : Nat) (filename : String) : TaskResult :=
  match env.b64decode file_content_b64 with
  | .error e => ⟨db, none, ["Error decoding content for " ++ filename ++ ": " ++ e]⟩
  | .ok file_content =>
    match env.extractText file_content with
    | .error e => ⟨db, none, ["Error extracting text from " ++ filename ++ ": " ++ e]⟩
    | .ok text =>
      let resume_vector := env.encode text
      match findRole db role_id with
      | none => ⟨db, none, ["Role with id " ++ toString role_id ++ " not found"]⟩
      | some role =>
        let score : ℝ :=
          match role.embedding with
          | none => 0
          | some emb => if emb.isEmpty then 0 else cosine_similarity resume_vector emb
        let candidate : Candidate :=
          { id := db.nextCandidateId, filename := filename, role_id := role_id,
            match_score := some (pyRound2 (score * 100)),
            name := none, email := none,
            resume_text := some text, resume_vector := some resume_vector }
        let db' : DB :=
          { roles := db.roles, candidates := db.candidates ++ [candidate],
            nextCandidateId := db.nextCandidateId + 1 }
        ⟨db', some candidate.id, []⟩

/-- One positional argument of a Celery `.delay(...)` call. -/
inductive TaskArg where
  | str (s : String)
  | nat (n : Nat)
deriving DecidableEq

/-- The enqueued task invocation: the positional argument list passed to
`analyze_resume_task.delay`. -/
structure TaskDispatch where
  args : List TaskArg
deriving DecidableEq

/-- Declared parameter list of `analyze_resume_task`
(src/app/tasks/resume_processor.py, line 19). -/
def analyzeTaskParams : List String := ["file_content_b64", "role_id", "filename"]

/-- Outcome of the `POST /analyze` endpoint: the database afterwards, the
dispatched task message, and the `candidate_id` echoed in the response. -/
structure AnalyzeResult where
  db : DB
  dispatch : TaskDispatch
  candidate_id : Nat

/-- `analyze_resume` endpoint (src/app/api/v1/endpoints.py, lines 22-52):
creates a pending `Candidate` (`match_score=None`, text/vector left at their
`None` defaults), then dispatches
`analyze_resume_task.delay(content_b64, candidate.id)` — two positional
arguments. -/
def analyze_resume (env : Env) (db : DB) (role_id : Nat) (filename : String)
    (content : Bytes) : AnalyzeResult :=
  let candidate : Candidate :=
    { id := db.nextCandidateId, filename := filename, role_id := role_id,
      match_score := none, name := none, email := none,
      resume_text := none, resume_vector := none }
  let db' : DB :=
    { roles := db.roles, candidates := db.candidates ++ [candidate],
      nextCandidateId := db.nextCandidateId + 1 }
  { db := db',
    dispatch := ⟨[TaskArg.str (env.b64encode content), TaskArg.nat candidate.id]⟩,
    candidate_id := candidate.id }

/-- Structured LLM output schema (`SuggestionOutput` in rag_service.py). -/
structure SuggestionOutput where
  strengths : List String
  weaknesses : List String
  suggestions : List String
  keywords_to_add : List String
  overall_assessment : String

/-- The dictionary returned by `RAGService.generate_suggestions`
(also the shape of `SuggestionResponse` in suggestion_dto.py). -/
structure SuggestionResponse where
  strengths : List String
  weaknesses : List String
  suggestions : List String
  keywords_to_add : List String
  overall_assessment : String
  match_score : Option ℝ
  raw_response : String

/-- The input dictionary handed to `self.chain.invoke` in
`generate_suggestions` (format instructions omitted: they are a constant). -/
structure ChainInput where
  job_title : String
  job_description : String
  job_requirements : String
  match_score : String
  resume_text : String

/-- Boundary collaborators of the RAG service: the LLM chain invocation
(returns the raw response text or fails), the Pydantic output parser
(structured parse or failure), and Python's float formatting
("{:.2f}" and "{:.1f}"). -/
structure RAGEnv where
  chainInvoke : ChainInput → Except String String
  parseOutput : String → Except String SuggestionOutput
  formatFloat2 : ℝ → String
  formatFloat1 : ℝ → String

/-- Python truthiness of an optional string: `None` and `""` are falsy.
`RAGService._initialize_components` leaves `self.chain = None` exactly when
`getattr(settings, 'OPENAI_API_KEY', None)` is falsy (note: the repository's
`Settings` class defines no `OPENAI_API_KEY` attribute at all, so in this
configuration the value is always `None`). -/
def truthyStr : Option String → Bool
  | none => false
  | some s => !(s == "")

/-- Model of Python `str.split()` (no argument): split on runs of whitespace,
discarding empty pieces.  `acc` holds the current word reversed. -/
def splitWordsAux : List Char → List Char → List String
  | [], acc => if acc.isEmpty then [] else [String.mk acc.reverse]
  | c :: cs, acc =>
    if c.isWhitespace then
      if acc.isEmpty then splitWordsAux cs []
      else String.mk acc.reverse :: splitWordsAux cs []
    else splitWordsAux cs (c :: acc)

/-- Python `s.split()`. -/
def pySplit (s : String) : List String := splitWordsAux s.data []

/-- Python `s.lower()` (character-wise lowercasing). -/
def pyLower (s : String) : String := String.mk (s.data.map Char.toLower)

/-- `RAGService._generate_fallback_suggestions` (rag_service.py, lines
198-237): keyword-difference heuristic plus fixed texts.  Python's `set`
difference and `list(...)[:10]` enumerate in unspecified order; the model
keeps first-occurrence order, which has the same membership and size. -/
noncomputable def generate_fallback_suggestions (env : RAGEnv)
    (resume_text job_title job_description : String)
    (job_requirements : Option String) (match_score : Option ℝ) :
    SuggestionResponse :=
  let resume_lower := pyLower resume_text
  let job_text := pyLower (job_title ++ " " ++ job_description ++ " " ++ job_requirements.getD "")
  let job_keywords := ((pySplit job_text).filter (fun w => 4 < w.length)).dedup
  let resume_keywords := ((pySplit resume_lower).filter (fun w => 4 < w.length)).dedup
  let missing_keywords := job_keywords.filter (fun w => !(resume_keywords.contains w))
  { strengths := ["Resume contains relevant keywords",
                  "Professional experience is documented"],
    weaknesses := ["Some job-specific keywords may be missing",
                   "Consider tailoring resume more to job requirements"],
    suggestions := ["Add missing keywords naturally into your resume",
                    "Highlight relevant experience more prominently",
                    "Quantify achievements where possible",
                    "Align skills section with job requirements",
                    "Customize summary/objective for this role"],
    keywords_to_add := missing_keywords.take 10,
    overall_assessment := "Based on keyword analysis, the resume has a " ++
      env.formatFloat1 (match_score.getD 0) ++
      "% match score. Consider incorporating more job-specific terminology and highlighting relevant experience.",
    match_score := match_score,
    raw_response := "Fallback analysis (LLM not configured - add OPENAI_API_KEY to enable LangChain-powered suggestions)" }

/-- The chain input built inside the `try` block of `generate_suggestions`:
`job_requirements or "Not specified"` (truthiness) and
`f"{match_score:.2f}%" if match_score is not None else "Not calculated"`. -/
def buildChainInput (env : RAGEnv) (resume_text job_title job_description : String)
    (job_requirements : Option String) (match_score : Option ℝ) : ChainInput :=
  { job_title := job_title,
    job_description := job_description,
    job_requirements :=
      match job_requirements with
      | none => "Not specified"
      | some s => if s == "" then "Not specified" else s,
    match_score :=
      match match_score with
      | none => "Not calculated"
      | some s => env.formatFloat2 s ++ "%",
    resume_text := resume_text }

/-- `RAGService.generate_suggestions` (rag_service.py, lines 92-163).
The `Bool` component records whether the LLM chain was invoked.
`if not self.chain` short-circuits to the fallback; any chain or parse
failure is caught by the `except` block and degrades to the fallback;
on success the lists are truncated (`[:5]`, `[:5]`, `[:7]`). -/
noncomputable def generate_suggestions (env : RAGEnv) (api_key : Option String)
    (resume_text job_title job_description : String)
    (job_requirements : Option String) (match_score : Option ℝ) :
    SuggestionResponse × Bool :=
  if truthyStr api_key = false then
    (generate_fallback_suggestions env resume_text job_title job_description
      job_requirements match_score, false)
  else
    match env.chainInvoke (buildChainInput env resume_text job_title
        job_description job_requirements match_score) with
    | .error _ =>
      (generate_fallback_suggestions env resume_text job_title job_description
        job_requirements match_score, true)
    | .ok result_text =>
      match env.parseOutput result_text with
      | .error _ =>
        (generate_fallback_suggestions env resume_text job_title job_description
          job_requirements match_score, true)
      | .ok parsed_output =>
        ({ strengths := parsed_output.strengths.take 5,
           weaknesses := parsed_output.weaknesses.take 5,
           suggestions := parsed_output.suggestions.take 7,
           keywords_to_add := parsed_output.keywords_to_add,
           overall_assessment := parsed_output.overall_assessment,
           match_score := match_score,
           raw_response := result_text }, true)

/-- Result of a FastAPI endpoint: a value or an `HTTPException`. -/
inductive ApiResult (α : Type) where
  | ok (val : α)
  | httpError (status_code : Nat) (detail : String)

/-- `get_suggestions` endpoint (src/app/api/v1/endpoints.py, lines 93-125):
404 for a missing candidate, 400 when `not candidate.resume_text` (both
`None` and `""` are falsy), 404 for a missing role, otherwise the RAG
service's answer. -/
noncomputable def get_suggestions (env : RAGEnv) (api_key : Option String)
    (db : DB) (candidate_id : Nat) : ApiResult SuggestionResponse :=
  match findCandidate db candidate_id with
  | none => .httpError 404 "Candidate not found"
  | some candidate =>
    match candidate.resume_text with
    | none => .httpError 400 "Resume has not been processed yet. Please wait for analysis to complete."
    | some text =>
      if text == "" then
        .httpError 400 "Resume has not been processed yet. Please wait for analysis to complete."
      else
        match findRole db candidate.role_id with
        | none => .httpError 404 "Role not found"
        | some role =>
          .ok (generate_suggestions env api_key text role.title role.description
            role.requirements candidate.match_score).1
/-! Helper lemmas about the scorer and Python rounding. -/

theorem dotList_nil_left (v : List ℝ) : dotList [] v = 0 := by
  simp [dotList]

theorem dotList_nil_right (u : List ℝ) : dotList u [] = 0 := by
  cases u <;> simp [dotList]

theorem dotList_cons (a b : ℝ) (as bs : List ℝ) :
    dotList (a :: as) (b :: bs) = a * b + dotList as bs := by
  simp [dotList]

theorem dotList_self_nonneg (u : List ℝ) : 0 ≤ dotList u u := by
  induction u with
  | nil => simp [dotList]
  | cons a as ih =>
    rw [dotList_cons]
    nlinarith [sq_nonneg a]

theorem dotList_sq_le (u v : List ℝ) :
    (dotList u v) ^ 2 ≤ dotList u u * dotList v v := by
  induction u generalizing v with
  | nil => simp [dotList_nil_left]
  | cons a as ih =>
    cases v with
    | nil =>
      rw [dotList_nil_right, dotList_nil_right]
      simp
    | cons b bs =>
      have hA := dotList_self_nonneg as
      have hB := dotList_self_nonneg bs
      have h := ih bs
      rw [dotList_cons, dotList_cons, dotList_cons]
      rcases eq_or_lt_of_le hB with hB0 | hBpos
      · have hd0 : dotList as bs = 0 := by
          have h' : (dotList as bs) ^ 2 ≤ 0 := by rw [← hB0] at h; linarith
          have := sq_nonneg (dotList as bs)
          nlinarith
        rw [hd0, ← hB0]
        nlinarith [sq_nonneg a, sq_nonneg b, sq_nonneg (a*b)]
      · nlinarith [sq_nonneg (a * dotList bs bs - b * dotList as bs),
          mul_nonneg hA (le_of_lt hBpos), sq_nonneg (a*b)]

theorem abs_dotList_le (u v : List ℝ) :
    |dotList u v| ≤ Real.sqrt (dotList u u) * Real.sqrt (dotList v v) := by
  rw [← Real.sqrt_mul (dotList_self_nonneg u)]
  rw [show |dotList u v| = Real.sqrt ((dotList u v) ^ 2) by
    rw [Real.sqrt_sq_eq_abs]]
  exact Real.sqrt_le_sqrt (dotList_sq_le u v)

theorem cosine_similarity_mem (u v : List ℝ) :
    -1 ≤ cosine_similarity u v ∧ cosine_similarity u v ≤ 1 := by
  unfold cosine_similarity
  have hD : 0 ≤ Real.sqrt (dotList u u) * Real.sqrt (dotList v v) :=
    mul_nonneg (Real.sqrt_nonneg _) (Real.sqrt_nonneg _)
  rcases eq_or_lt_of_le hD with h0 | hpos
  · rw [← h0, div_zero]
    constructor <;> norm_num
  · have habs : |dotList u v / (Real.sqrt (dotList u u) * Real.sqrt (dotList v v))| ≤ 1 := by
      rw [abs_div, abs_of_pos hpos]
      exact (div_le_one hpos).mpr ((abs_dotList_le u v))
    exact abs_le.mp habs

theorem pyRoundInt_bounds (x : ℝ) :
    x - 1/2 ≤ (pyRoundInt x : ℝ) ∧ (pyRoundInt x : ℝ) ≤ x + 1/2 := by
  unfold pyRoundInt
  split_ifs with h h2
  · have hx : x - (⌊x⌋ : ℝ) = 1/2 := by
      have := h
      rwa [Int.fract] at this
    constructor <;> [linarith; linarith]
  · have hx : x - (⌊x⌋ : ℝ) = 1/2 := by
      have := h
      rwa [Int.fract] at this
    push_cast
    constructor <;> [linarith; linarith]
  · have := abs_sub_round x
    have h' := abs_le.mp this
    constructor <;> [linarith [h'.2]; linarith [h'.1]]

theorem pyRoundInt_intCast (n : ℤ) : pyRoundInt (n : ℝ) = n := by
  unfold pyRoundInt
  rw [Int.fract_intCast, if_neg (by norm_num), round_intCast]

theorem pyRound2_zero : pyRound2 0 = 0 := by
  unfold pyRound2
  rw [show (0 : ℝ) * 100 = ((0 : ℤ) : ℝ) by norm_num, pyRoundInt_intCast]
  norm_num

theorem pyRound2_bounds (x : ℝ) (hl : -100 ≤ x) (hu : x ≤ 100) :
    -100 ≤ pyRound2 x ∧ pyRound2 x ≤ 100 := by
  unfold pyRound2
  obtain ⟨h1, h2⟩ := pyRoundInt_bounds (x * 100)
  have hzu : pyRoundInt (x * 100) ≤ 10000 := by
    have hr : ((pyRoundInt (x * 100) : ℤ) : ℝ) < 10001 := by nlinarith
    exact_mod_cast Int.lt_add_one_iff.mp (by exact_mod_cast hr)
  have hzl : -10000 ≤ pyRoundInt (x * 100) := by
    have hr : ((-10001 : ℤ) : ℝ) < ((pyRoundInt (x * 100) : ℤ) : ℝ) := by push_cast; nlinarith
    have h' : (-10001 : ℤ) < pyRoundInt (x * 100) := by exact_mod_cast hr
    omega
  constructor
  · have : ((-10000 : ℤ) : ℝ) ≤ (pyRoundInt (x * 100) : ℝ) := by exact_mod_cast hzl
    push_cast at this ⊢
    linarith
  · have : (pyRoundInt (x * 100) : ℝ) ≤ ((10000 : ℤ) : ℝ) := by exact_mod_cast hzu
    push_cast at this ⊢
    linarith

/-! Concrete test fixtures used by closed theorems and witnesses. -/

/-- Test environment: decoding and extraction always succeed, the encoder
returns the one-dimensional vector `[1]`. -/
noncomputable def testEnv0 : Env :=
  { b64encode := fun _ => "QkFTRTY0",
    b64decode := fun _ => .ok [],
    extractText := fun _ => .ok "some resume text",
    encode := fun _ => [1] }

/-- A role without an embedding. -/
def roleNoEmb : RoleProfile :=
  { id := 1, title := "Engineer", description := "desc", requirements := none,
    embedding := none }

/-- Database holding only `roleNoEmb`; next candidate primary key is 1. -/
def db0 : DB := { roles := [roleNoEmb], candidates := [], nextCandidateId := 1 }

/-- C5: the `analyze` endpoint enqueues `analyze_resume_task.delay` with two
positional arguments — the base64 content and the freshly created candidate's
id — although the task declares the three parameters `file_content_b64`,
`role_id`, `filename`; so the candidate id is positionally bound to `role_id`
and no argument is available for `filename`. -/
theorem dispatch_arity_mismatch (env : Env) (db : DB) (role_id : Nat)
    (filename : String) (content : Bytes) :
    (analyze_resume env db role_id filename content).dispatch.args.length = 2 ∧
    analyzeTaskParams.length = 3 ∧
    (analyze_resume env db role_id filename content).dispatch.args[1]? =
      some (TaskArg.nat (analyze_resume env db role_id filename content).candidate_id) ∧
    analyzeTaskParams[1]? = some "role_id" ∧
    (analyze_resume env db role_id filename content).dispatch.args.length <
      analyzeTaskParams.length := by
  refine ⟨rfl, rfl, ?_, rfl, by norm_num [analyze_resume, analyzeTaskParams]⟩
  rfl

/-- C1: evaluation at a failing input.  Submission creates pending candidate 1;
the subsequent task execution leaves candidate 1 untouched (still pending,
`match_score = None`, `resume_text = None`) and persists the analysis result
as a brand-new second record with id 2 — the code never mutates the record
created at submission time. -/
theorem analysis_persists_into_new_record_not_pending_one :
    (analyze_resume testEnv0 db0 1 "cv.pdf" []).candidate_id = 1 ∧
    ((findCandidate (analyze_resume_task testEnv0
        (analyze_resume testEnv0 db0 1 "cv.pdf" []).db "QkFTRTY0" 1 "cv.pdf").db 1).map
      Candidate.match_score = some none) ∧
    ((findCandidate (analyze_resume_task testEnv0
        (analyze_resume testEnv0 db0 1 "cv.pdf" []).db "QkFTRTY0" 1 "cv.pdf").db 1).map
      Candidate.resume_text = some none) ∧
    (analyze_resume_task testEnv0
        (analyze_resume testEnv0 db0 1 "cv.pdf" []).db "QkFTRTY0" 1 "cv.pdf").db.candidates.length = 2 ∧
    (analyze_resume_task testEnv0
        (analyze_resume testEnv0 db0 1 "cv.pdf" []).db "QkFTRTY0" 1 "cv.pdf").ret = some 2 ∧
    ((findCandidate (analyze_resume_task testEnv0
        (analyze_resume testEnv0 db0 1 "cv.pdf" []).db "QkFTRTY0" 1 "cv.pdf").db 2).map
      Candidate.match_score = some (some 0)) := by
  have h0 : pyRound2 ((0 : ℝ) * 100) = 0 := by rw [zero_mul, pyRound2_zero]
  refine ⟨rfl, ?_, ?_, ?_, ?_, ?_⟩ <;>
    simp [analyze_resume, analyze_resume_task, testEnv0, db0, findCandidate,
      findRole, roleNoEmb, List.find?, h0, pyRound2_zero]

/-- Case analysis on one task execution: either the database is unchanged
(decode failure, extraction failure, or missing role) or exactly one new
candidate row is appended, carrying score, text and vector together. -/
theorem task_candidates_cases (env : Env) (db : DB) (b64 : String) (rid : Nat)
    (fn : String) :
    (analyze_resume_task env db b64 rid fn).db = db ∨
    ∃ s text vec,
      (analyze_resume_task env db b64 rid fn).db.candidates =
        db.candidates ++
          [{ id := db.nextCandidateId, filename := fn, role_id := rid,
             match_score := some s, name := none, email := none,
             resume_text := some text, resume_vector := some vec }] := by
  unfold analyze_resume_task
  cases hdec : env.b64decode b64 with
  | error e => simp [hdec]
  | ok bs =>
    cases hext : env.extractText bs with
    | error e => simp [hdec, hext]
    | ok text =>
      cases hrole : findRole db rid with
      | none => simp [hdec, hext, hrole]
      | some role =>
        right
        refine ⟨pyRound2 ((match role.embedding with
          | none => 0
          | some emb => if emb.isEmpty then 0
            else cosine_similarity (env.encode text) emb) * 100),
          text, env.encode text, ?_⟩
        simp [hdec, hext, hrole]

/-- Invariant of the data model: a candidate's `match_score` is `None` exactly
when its `resume_text` is `None`. -/
def scoreTextInv (db : DB) : Prop :=
  ∀ c ∈ db.candidates, (c.match_score = none ↔ c.resume_text = none)

/-- C4: the submission endpoint and the Analysis Task both preserve the
invariant that `match_score` is `None` iff `resume_text` is `None` — the
pending row is created with both `None`, every failure path leaves the
database unchanged, and the success path writes score and text together. -/
theorem score_text_invariant_preserved (env : Env) (db : DB) (rid : Nat)
    (fn : String) (content : Bytes) (b64 : String) (trid : Nat) (tfn : String)
    (h : scoreTextInv db) :
    scoreTextInv (analyze_resume env db rid fn content).db ∧
    scoreTextInv (analyze_resume_task env db b64 trid tfn).db := by
  constructor
  · intro c hc
    simp only [analyze_resume] at hc
    rcases List.mem_append.mp hc with h1 | h1
    · exact h c h1
    · simp only [List.mem_singleton] at h1
      subst h1
      simp
  · intro c hc
    rcases task_candidates_cases env db b64 trid tfn with hcase | ⟨s, text, vec, hcase⟩
    · rw [hcase] at hc
      exact h c hc
    · rw [hcase] at hc
      rcases List.mem_append.mp hc with h1 | h1
      · exact h c h1
      · simp only [List.mem_singleton] at h1
        subst h1
        simp

/-- C4 witness: the invariant holds concretely after a submission and after a
task execution starting from an invariant-satisfying database. -/
theorem score_text_invariant_preserved_witness :
    scoreTextInv (analyze_resume testEnv0 db0 1 "cv.pdf" []).db ∧
    scoreTextInv (analyze_resume_task testEnv0 db0 "QkFTRTY0" 1 "cv.pdf").db :=
  score_text_invariant_preserved testEnv0 db0 1 "cv.pdf" [] "QkFTRTY0" 1 "cv.pdf"
    (by intro c hc; simp [db0] at hc)

/-- C3: evaluation at a failing input.  A first task execution persists an
analysis result as candidate 1; re-running the task with the same arguments on
the already-analyzed database is not a no-op on persisted state: it leaves
candidate 1's fields unchanged but appends a second analysis record — the code
contains no `match_score is None` guard. -/
theorem second_run_appends_second_record :
    (analyze_resume_task testEnv0 db0 "QkFTRTY0" 1 "cv.pdf").db.candidates.length = 1 ∧
    ((findCandidate (analyze_resume_task testEnv0 db0 "QkFTRTY0" 1 "cv.pdf").db 1).map
      Candidate.match_score = some (some 0)) ∧
    (analyze_resume_task testEnv0
        (analyze_resume_task testEnv0 db0 "QkFTRTY0" 1 "cv.pdf").db
        "QkFTRTY0" 1 "cv.pdf").db.candidates.length = 2 ∧
    (findCandidate (analyze_resume_task testEnv0
        (analyze_resume_task testEnv0 db0 "QkFTRTY0" 1 "cv.pdf").db
        "QkFTRTY0" 1 "cv.pdf").db 1 =
      findCandidate (analyze_resume_task testEnv0 db0 "QkFTRTY0" 1 "cv.pdf").db 1) ∧
    ((findCandidate (analyze_resume_task testEnv0
        (analyze_resume_task testEnv0 db0 "QkFTRTY0" 1 "cv.pdf").db
        "QkFTRTY0" 1 "cv.pdf").db 2).map
      Candidate.match_score = some (some 0)) := by
  refine ⟨?_, ?_, ?_, ?_, ?_⟩ <;>
    simp [analyze_resume_task, testEnv0, db0, findCandidate, findRole,
      roleNoEmb, List.find?, pyRound2_zero]

/-- C8: when the role exists but has `embedding = None`, the computed score is
exactly 0.0 and the task persists normally (no error logged, candidate id
returned) with `match_score = 0.0`. -/
theorem none_embedding_scores_zero (env : Env) (db : DB) (b64 : String)
    (rid : Nat) (fn : String) (bs : Bytes) (text : String) (role : RoleProfile)
    (hdec : env.b64decode b64 = .ok bs)
    (hext : env.extractText bs = .ok text)
    (hrole : findRole db rid = some role)
    (hemb : role.embedding = none) :
    (analyze_resume_task env db b64 rid fn).db.candidates =
      db.candidates ++
        [{ id := db.nextCandidateId, filename := fn, role_id := rid,
           match_score := some 0, name := none, email := none,
           resume_text := some text, resume_vector := some (env.encode text) }] ∧
    (analyze_resume_task env db b64 rid fn).ret = some db.nextCandidateId ∧
    (analyze_resume_task env db b64 rid fn).log = [] := by
  unfold analyze_resume_task
  simp only [hdec]
  simp only [hext]
  simp only [hrole, hemb]
  simp [pyRound2_zero]

/-- C8 witness: concrete task execution against a role without embedding. -/
theorem none_embedding_scores_zero_witness :
    (analyze_resume_task testEnv0 db0 "QkFTRTY0" 1 "cv.pdf").db.candidates =
      db0.candidates ++
        [{ id := db0.nextCandidateId, filename := "cv.pdf", role_id := 1,
           match_score := some 0, name := none, email := none,
           resume_text := some "some resume text",
           resume_vector := some (testEnv0.encode "some resume text") }] ∧
    (analyze_resume_task testEnv0 db0 "QkFTRTY0" 1 "cv.pdf").ret = some db0.nextCandidateId ∧
    (analyze_resume_task testEnv0 db0 "QkFTRTY0" 1 "cv.pdf").log = [] :=
  none_embedding_scores_zero testEnv0 db0 "QkFTRTY0" 1 "cv.pdf" []
    "some resume text" roleNoEmb rfl rfl rfl rfl

/-- Test environment whose encoder returns the vector `[-1]`, opposite to the
stored role embedding `[1]`. -/
noncomputable def envNeg : Env :=
  { b64encode := fun _ => "QkFTRTY0",
    b64decode := fun _ => .ok [],
    extractText := fun _ => .ok "txt",
    encode := fun _ => [-1] }

/-- A role whose embedding is the one-dimensional vector `[1]`. -/
noncomputable def roleEmb1 : RoleProfile :=
  { id := 1, title := "Engineer", description := "desc", requirements := none,
    embedding := some [1] }

/-- Database holding only `roleEmb1`. -/
noncomputable def dbEmb1 : DB :=
  { roles := [roleEmb1], candidates := [], nextCandidateId := 1 }

/-- C2 counterexample: with role embedding `[1]` and resume vector `[-1]`
(cosine similarity `-1`) the task persists `match_score = -100.0`, which is
negative and differs from the claimed `round(max(0, cos) * 100, 2) = 0` —
the code applies no `max(0, ·)` clamp. -/
theorem match_score_not_clamped_counterexample :
    ((findCandidate (analyze_resume_task envNeg dbEmb1 "eA==" 1 "cv.pdf").db 1).map
      Candidate.match_score = some (some (-100))) ∧
    ¬ (0 : ℝ) ≤ -100 ∧
    pyRound2 (max 0 (cosine_similarity [-1] [1]) * 100) = 0 := by
  have hcos : cosine_similarity [(-1 : ℝ)] [1] = -1 := by
    unfold cosine_similarity dotList
    norm_num [Real.sqrt_one]
  have hm100 : pyRound2 (-100) = -100 := by
    unfold pyRound2
    rw [show ((-100 : ℝ) * 100) = ((-10000 : ℤ) : ℝ) by norm_num, pyRoundInt_intCast]
    norm_num
  refine ⟨?_, ?_, ?_⟩
  · simp [analyze_resume_task, envNeg, dbEmb1, roleEmb1, findCandidate,
      findRole, List.find?, hcos, hm100]
  · norm_num
  · rw [hcos]
    norm_num [pyRound2_zero]

/-- C2 (amended): on the success path with an existing role whose embedding is
a nonempty vector `R` (of the resume vector's dimension), the persisted
`match_score` is `round(cosine_similarity(V, R) * 100, 2)` with no clamping
at zero, and it lies in `[-100, 100]`. -/
theorem match_score_no_clamp_bounds (env : Env) (db : DB) (b64 : String)
    (rid : Nat) (fn : String) (bs : Bytes) (text : String) (role : RoleProfile)
    (emb : List ℝ)
    (hdec : env.b64decode b64 = .ok bs)
    (hext : env.extractText bs = .ok text)
    (hrole : findRole db rid = some role)
    (hemb : role.embedding = some emb)
    (hne : emb.isEmpty = false)
    (_hdim : (env.encode text).length = emb.length) :
    (analyze_resume_task env db b64 rid fn).db.candidates =
      db.candidates ++
        [{ id := db.nextCandidateId, filename := fn, role_id := rid,
           match_score :=
             some (pyRound2 (cosine_similarity (env.encode text) emb * 100)),
           name := none, email := none, resume_text := some text,
           resume_vector := some (env.encode text) }] ∧
    -100 ≤ pyRound2 (cosine_similarity (env.encode text) emb * 100) ∧
    pyRound2 (cosine_similarity (env.encode text) emb * 100) ≤ 100 := by
  obtain ⟨hc1, hc2⟩ := cosine_similarity_mem (env.encode text) emb
  obtain ⟨hb1, hb2⟩ := pyRound2_bounds (cosine_similarity (env.encode text) emb * 100)
    (by nlinarith) (by nlinarith)
  refine ⟨?_, hb1, hb2⟩
  unfold analyze_resume_task
  simp only [hdec]
  simp only [hext]
  simp only [hrole, hemb]
  simp [hne]

/-- Test environment whose encoder returns `[1]`, aligned with `roleEmb1`. -/
noncomputable def envPos : Env :=
  { b64encode := fun _ => "QkFTRTY0",
    b64decode := fun _ => .ok [],
    extractText := fun _ => .ok "txt",
    encode := fun _ => [1] }

/-- C2 witness: concrete success-path execution against `roleEmb1`. -/
theorem match_score_no_clamp_bounds_witness :
    (analyze_resume_task envPos dbEmb1 "eA==" 1 "cv.pdf").db.candidates =
      dbEmb1.candidates ++
        [{ id := dbEmb1.nextCandidateId, filename := "cv.pdf", role_id := 1,
           match_score :=
             some (pyRound2 (cosine_similarity (envPos.encode "txt") [1] * 100)),
           name := none, email := none, resume_text := some "txt",
           resume_vector := some (envPos.encode "txt") }] ∧
    -100 ≤ pyRound2 (cosine_similarity (envPos.encode "txt") [1] * 100) ∧
    pyRound2 (cosine_similarity (envPos.encode "txt") [1] * 100) ≤ 100 :=
  match_score_no_clamp_bounds envPos dbEmb1 "eA==" 1 "cv.pdf" [] "txt" roleEmb1
    [1] rfl rfl rfl rfl rfl rfl

/-- Test environment whose base64 decoding always fails. -/
noncomputable def envDecodeFail : Env :=
  { b64encode := fun _ => "QkFTRTY0",
    b64decode := fun _ => .error "corrupt",
    extractText := fun _ => .ok "txt",
    encode := fun _ => [1] }

/-- Naive whole-list comparison used to express that one character list occurs
inside another (models the spec predicate "the message carries the id"). -/
def hasPrefixL : List Char → List Char → Bool
  | [], _ => true
  | _ :: _, [] => false
  | a :: as, b :: bs => a == b && hasPrefixL as bs

/-- Substring occurrence on character lists. -/
def containsSub (pat : List Char) : List Char → Bool
  | [] => hasPrefixL pat []
  | b :: bs => hasPrefixL pat (b :: bs) || containsSub pat bs

/-- Database with one role and next candidate primary key 9. -/
def db9 : DB := { roles := [roleNoEmb], candidates := [], nextCandidateId := 9 }

/-- C6 counterexample: the submission creates pending candidate 9, the task's
decode failure leaves the database unchanged and returns `None`, but the
logged message interpolates the `filename` parameter, not the candidate id —
the digit string "9" does not occur in the log line at all (the task is not
even given a candidate id). -/
theorem failure_log_lacks_candidate_id :
    (analyze_resume envDecodeFail db9 1 "cv.pdf" []).candidate_id = 9 ∧
    (analyze_resume_task envDecodeFail
        (analyze_resume envDecodeFail db9 1 "cv.pdf" []).db "eA==" 1 "cv.pdf").db =
      (analyze_resume envDecodeFail db9 1 "cv.pdf" []).db ∧
    (analyze_resume_task envDecodeFail
        (analyze_resume envDecodeFail db9 1 "cv.pdf" []).db "eA==" 1 "cv.pdf").ret = none ∧
    (analyze_resume_task envDecodeFail
        (analyze_resume envDecodeFail db9 1 "cv.pdf" []).db "eA==" 1 "cv.pdf").log =
      ["Error decoding content for cv.pdf: corrupt"] ∧
    containsSub "9".data "Error decoding content for cv.pdf: corrupt".data = false := by
  refine ⟨rfl, rfl, rfl, ?_, by decide⟩
  simp [analyze_resume_task, envDecodeFail]

/-- C6 (amended): if transport decoding or text extraction fails inside the
task, the task terminates without writing any Candidate fields (the database
is unchanged, so the submission's record remains pending), no exception
propagates past the task boundary (the task returns `None`), and the error is
logged with the `filename` parameter — the task receives no candidate id. -/
theorem decode_extract_failure_leaves_db_unchanged (env : Env) (db : DB)
    (b64 : String) (rid : Nat) (fn : String) (e : String)
    (h : env.b64decode b64 = .error e ∨
      ∃ bs, env.b64decode b64 = .ok bs ∧ env.extractText bs = .error e) :
    (analyze_resume_task env db b64 rid fn).db = db ∧
    (analyze_resume_task env db b64 rid fn).ret = none ∧
    ((analyze_resume_task env db b64 rid fn).log =
        ["Error decoding content for " ++ fn ++ ": " ++ e] ∨
      (analyze_resume_task env db b64 rid fn).log =
        ["Error extracting text from " ++ fn ++ ": " ++ e]) := by
  rcases h with hdec | ⟨bs, hdec, hext⟩
  · unfold analyze_resume_task
    simp [hdec]
  · unfold analyze_resume_task
    simp only [hdec]
    simp [hext]

/-- C6 witness: concrete decode failure. -/
theorem decode_extract_failure_leaves_db_unchanged_witness :
    (analyze_resume_task envDecodeFail db9 "eA==" 1 "cv.pdf").db = db9 ∧
    (analyze_resume_task envDecodeFail db9 "eA==" 1 "cv.pdf").ret = none ∧
    ((analyze_resume_task envDecodeFail db9 "eA==" 1 "cv.pdf").log =
        ["Error decoding content for " ++ "cv.pdf" ++ ": " ++ "corrupt"] ∨
      (analyze_resume_task envDecodeFail db9 "eA==" 1 "cv.pdf").log =
        ["Error extracting text from " ++ "cv.pdf" ++ ": " ++ "corrupt"]) :=
  decode_extract_failure_leaves_db_unchanged envDecodeFail db9 "eA==" 1 "cv.pdf"
    "corrupt" (Or.inl rfl)

/-- Trivial RAG service environment for concrete evaluations. -/
noncomputable def trivRagEnv : RAGEnv :=
  { chainInvoke := fun _ => .error "no backend",
    parseOutput := fun _ => .error "no parse",
    formatFloat2 := fun _ => "",
    formatFloat1 := fun _ => "" }

/-- C7: the suggestion generator never escalates a failure.  Whenever the
API key is falsy (no credential configured) or the chain invocation or the
output parsing fails, the result is exactly the fallback suggestion set;
moreover the chain is invoked iff the credential is truthy, so a missing
credential short-circuits without any backend call. -/
theorem generate_suggestions_falls_back (env : RAGEnv) (api_key : Option String)
    (rt jt jd : String) (jr : Option String) (ms : Option ℝ)
    (h : truthyStr api_key = false ∨
      (∃ e, env.chainInvoke (buildChainInput env rt jt jd jr ms) = .error e) ∨
      (∃ t e, env.chainInvoke (buildChainInput env rt jt jd jr ms) = .ok t ∧
        env.parseOutput t = .error e)) :
    (generate_suggestions env api_key rt jt jd jr ms).1 =
      generate_fallback_suggestions env rt jt jd jr ms ∧
    (generate_suggestions env api_key rt jt jd jr ms).2 = truthyStr api_key := by
  by_cases htk : truthyStr api_key = false
  · unfold generate_suggestions
    rw [if_pos htk, htk]
    exact ⟨rfl, rfl⟩
  · have htk' : truthyStr api_key = true := by
      cases h' : truthyStr api_key
      · exact absurd h' htk
      · rfl
    rcases h with hk | ⟨e, hinv⟩ | ⟨t, e, hinv, hparse⟩
    · exact absurd hk htk
    · unfold generate_suggestions
      rw [if_neg htk, hinv, htk']
      exact ⟨rfl, rfl⟩
    · unfold generate_suggestions
      rw [if_neg htk]
      simp only [hinv]
      simp only [hparse]
      rw [htk']
      simp

/-- C7 witness: with no API key configured the fallback is returned and the
backend is not called. -/
theorem generate_suggestions_falls_back_witness :
    (generate_suggestions trivRagEnv none "r" "t" "d" none none).1 =
      generate_fallback_suggestions trivRagEnv "r" "t" "d" none none ∧
    (generate_suggestions trivRagEnv none "r" "t" "d" none none).2 = truthyStr none :=
  generate_suggestions_falls_back trivRagEnv none "r" "t" "d" none none (Or.inl rfl)

/-- Soundness of the keyword-difference construction: every member of the
truncated difference list is a long word of the job text that is not a word
of the resume text. -/
theorem mem_keyword_difference {jobWords resumeWords : List String} {w : String}
    (hw : w ∈ (((jobWords.filter (fun x => 4 < x.length)).dedup.filter
      (fun x => !(((resumeWords.filter (fun x => 4 < x.length)).dedup.contains x)))).take 10)) :
    4 < w.length ∧ w ∈ jobWords ∧ w ∉ resumeWords := by
  have h1 : w ∈ (jobWords.filter (fun x => 4 < x.length)).dedup.filter
      (fun x => !(((resumeWords.filter (fun x => 4 < x.length)).dedup.contains x))) :=
    List.take_subset _ _ hw
  rw [List.mem_filter] at h1
  obtain ⟨hjob, hnot⟩ := h1
  rw [List.mem_dedup, List.mem_filter] at hjob
  have hlen : 4 < w.length := by simpa using hjob.2
  refine ⟨hlen, hjob.1, ?_⟩
  intro hmem
  have hin : (resumeWords.filter (fun x => 4 < x.length)).dedup.contains w = true := by
    simp [List.mem_dedup, List.mem_filter, hmem, hlen]
  rw [hin] at hnot
  simp at hnot

/-- C9: the fallback's `keywords_to_add` has at most 10 entries, and each
entry is a word longer than 4 characters that occurs in the lowercased job
text (title, description, requirements) and does not occur in the lowercased
resume text. -/
theorem fallback_keywords_sound (env : RAGEnv) (rt jt jd : String)
    (jr : Option String) (ms : Option ℝ) :
    (generate_fallback_suggestions env rt jt jd jr ms).keywords_to_add.length ≤ 10 ∧
    ∀ w ∈ (generate_fallback_suggestions env rt jt jd jr ms).keywords_to_add,
      4 < w.length ∧
      w ∈ pySplit (pyLower (jt ++ " " ++ jd ++ " " ++ jr.getD "")) ∧
      w ∉ pySplit (pyLower rt) := by
  constructor
  · have h := List.length_take_le 10
      (((pySplit (pyLower (jt ++ " " ++ jd ++ " " ++ jr.getD ""))).filter
        (fun x => 4 < x.length)).dedup.filter
        (fun x => !(((pySplit (pyLower rt)).filter (fun x => 4 < x.length)).dedup.contains x)))
    simp only [generate_fallback_suggestions]
    exact h
  · intro w hw
    simp only [generate_fallback_suggestions] at hw
    exact mem_keyword_difference hw

/-- C9 witness: for resume "java dev" and job title/description
"python"/"backend", the word "python" is reported and satisfies all three
conditions. -/
theorem fallback_keywords_sound_witness :
    4 < "python".length ∧
    "python" ∈ pySplit (pyLower ("python" ++ " " ++ "backend" ++ " " ++
      (none : Option String).getD "")) ∧
    "python" ∉ pySplit (pyLower "java dev") :=
  (fallback_keywords_sound trivRagEnv "java dev" "python" "backend" none none).2
    "python" (by decide)

/-- C10: error discrimination of the suggestions endpoint.  A missing
candidate yields HTTP 404; an existing candidate whose `resume_text` is
`None` yields the HTTP 400 precondition error (and never a 404); an analyzed
candidate whose role is missing yields HTTP 404. -/
theorem get_suggestions_error_codes (env : RAGEnv) (api_key : Option String)
    (db : DB) (cid : Nat) :
    (findCandidate db cid = none →
      get_suggestions env api_key db cid =
        ApiResult.httpError 404 "Candidate not found") ∧
    (∀ c, findCandidate db cid = some c → c.resume_text = none →
      get_suggestions env api_key db cid =
        ApiResult.httpError 400
          "Resume has not been processed yet. Please wait for analysis to complete." ∧
      ∀ d, get_suggestions env api_key db cid ≠ ApiResult.httpError 404 d) ∧
    (∀ c t, findCandidate db cid = some c → c.resume_text = some t → t ≠ "" →
      findRole db c.role_id = none →
      get_suggestions env api_key db cid =
        ApiResult.httpError 404 "Role not found") := by
  refine ⟨?_, ?_, ?_⟩
  · intro h
    unfold get_suggestions
    rw [h]
  · intro c hc hrt
    have h400 : get_suggestions env api_key db cid =
        ApiResult.httpError 400
          "Resume has not been processed yet. Please wait for analysis to complete." := by
      unfold get_suggestions
      simp only [hc]
      simp only [hrt]
    refine ⟨h400, ?_⟩
    intro d heq
    rw [h400] at heq
    simp at heq
  · intro c t hc hrt hne hrole
    unfold get_suggestions
    simp only [hc]
    simp only [hrt]
    have hbeq : (t == "") = false := by
      simp [hne]
    simp only [hbeq]
    simp only [hrole]
    simp

/-- Pending candidate (id 5) used by the C10 witness. -/
def candPending : Candidate :=
  { id := 5, filename := "cv.pdf", role_id := 1, match_score := none,
    name := none, email := none, resume_text := none, resume_vector := none }

/-- Database with a pending candidate (id 5) for the C10 witness. -/
def dbPend : DB :=
  { roles := [roleNoEmb], candidates := [candPending], nextCandidateId := 6 }

/-- C10 witness: candidate 5 is pending, so the endpoint answers 400 and not
404; the absent candidate 99 yields 404. -/
theorem get_suggestions_error_codes_witness :
    get_suggestions trivRagEnv none dbPend 5 =
      ApiResult.httpError 400
        "Resume has not been processed yet. Please wait for analysis to complete." ∧
    (∀ d, get_suggestions trivRagEnv none dbPend 5 ≠ ApiResult.httpError 404 d) ∧
    get_suggestions trivRagEnv none dbPend 99 =
      ApiResult.httpError 404 "Candidate not found" :=
  ⟨((get_suggestions_error_codes trivRagEnv none dbPend 5).2.1 candPending rfl rfl).1,
   ((get_suggestions_error_codes trivRagEnv none dbPend 5).2.1 candPending rfl rfl).2,
   (get_suggestions_error_codes trivRagEnv none dbPend 99).1 rfl⟩
